import Mathlib

/-!
Verification development for the ACVP proxy operational-environment (OE)
metadata handler.

The definitions below are a shallow embedding of the C sources:
  * src/lib/acvp/acvp_meta_oe.c  (builders, matchers, dependency and OE handlers)
  * src/lib/definition.h         (struct def_oe, the identifier status-bit codec)
  * the json_wrapper.c helpers bundled with definition.h (json_find_key,
    json_get_string)

Helper functions of the repository that are not shipped under src/
(acvp_str_match, acvp_get_trailing_number / acvp_get_id_from_url,
acvp_meta_register, acvp_meta_obtain_request_result, the lock helpers
acvp_def_get_oe_id / acvp_def_put_oe_id, the URL construction helpers and
the network transport) are modelled from the specification; each such
definition carries a doc comment starting with `Modelled from the spec:`.
Machine integers are modelled as `Nat` (the identifiers are `uint32_t`;
claims that depend on the width state `id < 2^32` explicitly), and C `int`
return codes are modelled as `Int` (0 = success, negative errno values for
failures, exactly as in the C code).
-/

/-- C errno constant `ENOENT` (the code returns `-ENOENT` for "not found" /
"no match"). -/
def ENOENT : Int := 2

/-- C errno constant `EINVAL` (the code returns `-EINVAL` for wrongly typed
JSON fields and other invalid data). -/
def EINVAL : Int := 22

/-- C errno constant `EAGAIN`. -/
def EAGAIN : Int := 11

/-! ## JSON model

json-c is an external collaborator of the reconciliation core (spec §1 "OUT OF
SCOPE: the JSON parsing primitives ... consumed as capabilities with fixed
contracts").  A JSON value is modelled as an inductive; a json-c object keeps
its members in insertion order, modelled as an association list.  Adding a
member with a NULL `json_object *` (as `acvp_oe_build_dep_sw` does for absent
`cpe`/`swid`) yields a member whose value is JSON null. -/

inductive JsonVal where
  | str (s : String)
  | num (n : Int)
  | bool (b : Bool)
  | null
  | arr (elems : List JsonVal)
  | obj (fields : List (String × JsonVal))

/-- The json-c type tags relevant to the embedded code
(`json_type_string`, `json_type_array`, ...). -/
inductive JsonType where
  | string | int | boolean | null | array | object
deriving DecidableEq

/-- Type of a JSON value, as `json_object_get_type` reports it. -/
def JsonVal.typeOf : JsonVal → JsonType
  | .str _ => .string
  | .num _ => .int
  | .bool _ => .boolean
  | .null => .null
  | .arr _ => .array
  | .obj _ => .object

/-- First binding of `key` in an association list (json-c keeps the first
added member under lookup). -/
def jsonAssocLookup : List (String × JsonVal) → String → Option JsonVal
  | [], _ => none
  | (k, v) :: rest, key => if k = key then some v else jsonAssocLookup rest key

/-- `json_object_object_get_ex`: member lookup; fails on non-objects. -/
def json_object_object_get_ex (obj : JsonVal) (key : String) : Option JsonVal :=
  match obj with
  | .obj fields => jsonAssocLookup fields key
  | _ => none

/-- `json_find_key` (json_wrapper.c): `-ENOENT` when the member is missing,
`-EINVAL` when it has the wrong JSON type, the member otherwise. -/
def json_find_key (inobj : JsonVal) (name : String) (ty : JsonType) :
    Except Int JsonVal :=
  match json_object_object_get_ex inobj name with
  | none => .error (-ENOENT)
  | some o => if o.typeOf = ty then .ok o else .error (-EINVAL)

/-- `json_get_string` (json_wrapper.c): fetch a string member. -/
def json_get_string (obj : JsonVal) (name : String) : Except Int String :=
  match json_find_key obj name .string with
  | .error r => .error r
  | .ok (.str s) => .ok s
  | .ok _ => .error (-EINVAL)

/-! ## The OE definition record (struct def_oe, definition.h) -/

/-- `enum def_mod_type` (definition.h). -/
inductive DefModType where
  | software | hardware | firmware
deriving DecidableEq

/-- `struct def_oe` (definition.h).  Nullable `char *` fields are
`Option String`; the three ACVP identifiers are `uint32_t`, modelled as `Nat`.
The `def_lock` member (the entity lock) is process state, not data, and is
not part of the record. -/
structure DefOe where
  env_type : DefModType := .software
  oe_env_name : Option String := none
  cpe : Option String := none
  swid : Option String := none
  oe_description : Option String := none
  manufacturer : Option String := none
  proc_family : Option String := none
  proc_family_internal : Option String := none
  proc_name : Option String := none
  proc_series : Option String := none
  features : Nat := 0
  def_oe_file : Option String := none
  acvp_oe_id : Nat := 0
  acvp_oe_dep_sw_id : Nat := 0
  acvp_oe_dep_proc_id : Nat := 0
deriving DecidableEq

/-- A `def_oe` with every pointer NULL and every identifier 0. -/
def emptyOe : DefOe := {}

/-! ## Identifier status-bit codec (definition.h) -/

/-- `ACVP_REQUEST_INITIAL` = `1 << 30` (pending-submission). -/
def ACVP_REQUEST_INITIAL : Nat := 1 <<< 30

/-- `ACVP_REQUEST_PROCESSING` = `1 << 29` (pending-processing). -/
def ACVP_REQUEST_PROCESSING : Nat := 1 <<< 29

/-- `ACVP_REQUEST_REJECTED` = `1 << 28` (rejected). -/
def ACVP_REQUEST_REJECTED : Nat := 1 <<< 28

/-- `ACVP_REQUEST_MASK` (definition.h). -/
def ACVP_REQUEST_MASK : Nat :=
  ACVP_REQUEST_INITIAL ||| ACVP_REQUEST_PROCESSING ||| ACVP_REQUEST_REJECTED

/-- `acvp_valid_id` (definition.h): an identifier is usable iff it is nonzero
and carries no status bit. -/
def acvp_valid_id (id : Nat) : Bool :=
  if id = 0 ∨ id &&& ACVP_REQUEST_MASK ≠ 0 then false else true

/-- `acvp_request_id` (definition.h). -/
def acvp_request_id (id : Nat) : Bool :=
  if id &&& ACVP_REQUEST_MASK ≠ 0 then true else false

/-! ## String helpers modelled from the spec -/

/-- Boolean string equality on character lists (kernel-computable). -/
def strStartsWithL : List Char → List Char → Bool
  | _, [] => true
  | [], _ :: _ => false
  | a :: as, b :: bs => a = b && strStartsWithL as bs

/-- `s` begins with `p`.  Models the C idiom `!strncmp(s, p, strlen(p))`
used by the dependency-type dispatch and the OE-name assembly. -/
def strStartsWith (s p : String) : Bool := strStartsWithL s.data p.data

/-- Modelled from the spec: `acvp_str_match` is not under src/.  Spec §4.3:
"Field comparison is exact string equality (case-sensitive)", over "every
field the local entity declares"; a field the local entity does not declare
(a NULL pointer at the C call site) imposes no constraint, matching §4.3
"an extra remote field absent locally is ignored".  Returns 0 on match and
`-ENOENT` on mismatch, as the CKINT call sites require. -/
def acvp_str_match (exp : Option String) (found : String) : Int :=
  match exp with
  | some e => if e = found then 0 else -ENOENT
  | none => 0

/-- Decimal digit accumulator for the trailing-number parse. -/
def parseDecDigits : List Char → Nat → Option Nat
  | [], acc => some acc
  | c :: cs, acc =>
      if c.isDigit then parseDecDigits cs (acc * 10 + (c.toNat - 48)) else none

/-- All-digit decimal parse of a nonempty character list. -/
def parseDecimal (l : List Char) : Option Nat :=
  match l with
  | [] => none
  | _ :: _ => parseDecDigits l 0

/-- Characters after the last '/' (the whole string when it has no '/'). -/
def afterLastSlash (l : List Char) : List Char :=
  l.foldl (fun acc c => if c = '/' then [] else acc ++ [c]) []

/-- Modelled from the spec: `acvp_get_trailing_number` is not under src/.
Spec §3: a dependency is referenced "by a URL containing its Identifier";
§4.3: the matcher "extracts the remote Identifier from the document's
self-referencing URL".  The component after the final '/' is parsed as a
decimal number; anything else is `-EINVAL`. -/
def acvp_get_trailing_number (s : String) : Except Int Nat :=
  match parseDecimal (afterLastSlash s.data) with
  | some n => .ok n
  | none => .error (-EINVAL)

/-- Modelled from the spec: `acvp_get_id_from_url` is not under src/.  Per
spec §4.3 it extracts the numeric Identifier from a self-referencing URL,
i.e. its trailing number. -/
def acvp_get_id_from_url (url : String) : Except Int Nat :=
  acvp_get_trailing_number url

/-- Modelled from the spec: the URL helpers `acvp_create_url` /
`acvp_create_urlpath` with `NIST_VAL_OP_DEPENDENCY` are not under src/.
Spec §6 names the collection `/dependencies`. -/
def acvp_dependency_url : String := "/dependencies"

/-- `acvp_oe_add_dep_url` (acvp_meta_oe.c): the URL of one dependency,
`"<dependency collection>/<id>"`. -/
def acvp_dep_url (id : Nat) : String := acvp_dependency_url ++ "/" ++ toString id

/-! ## Builders (acvp_meta_oe.c) -/

/-- `json_object_new_string` applied to a possibly-NULL `char *`.  The C
code only reaches this with non-NULL pointers for the processor fields; a
NULL pointer (undefined in C) is modelled as JSON null. -/
def jstrOpt : Option String → JsonVal
  | some s => .str s
  | none => .null

/-- `acvp_oe_build_dep_proc` (acvp_meta_oe.c lines 39-103): the processor
dependency document.  Memory-allocation failures (`-ENOMEM`) are not
modelled, so the return code is always 0. -/
def acvp_oe_build_dep_proc (def_oe : DefOe) : Int × JsonVal :=
  (0, .obj
    [("type", .str "processor"),
     ("manufacturer", jstrOpt def_oe.manufacturer),
     ("family", jstrOpt def_oe.proc_family),
     ("name", jstrOpt def_oe.proc_name),
     ("series", jstrOpt def_oe.proc_series),
     ("description", .str ("Processor " ++ (def_oe.proc_name.getD "")
        ++ " (processor family " ++ (def_oe.proc_family.getD "")
        ++ ") from " ++ (def_oe.manufacturer.getD "")))])

/-- `acvp_oe_build_dep_sw` (acvp_meta_oe.c lines 105-169): the software
dependency document.  With a NULL `oe_env_name` the builder succeeds and
produces no document.  The `cpe`/`swid` members are always added, with a
NULL value for the absent one (both NULL when neither is configured); a
configured `cpe` takes precedence over a configured `swid`.
Memory-allocation failures are not modelled, so the return code is
always 0. -/
def acvp_oe_build_dep_sw (def_oe : DefOe) : Int × Option JsonVal :=
  match def_oe.oe_env_name with
  | none => (0, none)
  | some name =>
    let cpeSwid : List (String × JsonVal) :=
      match def_oe.cpe, def_oe.swid with
      | some c, _ => [("cpe", .str c), ("swid", .null)]
      | none, some w => [("cpe", .null), ("swid", .str w)]
      | none, none => [("cpe", .null), ("swid", .null)]
    let desc : String :=
      match def_oe.oe_description with
      | some d => d
      | none => name
    (0, some (.obj
      ([("type", .str "software"), ("name", .str name)] ++ cpeSwid
        ++ [("description", .str desc)])))

/-- Append a self-referencing `"url"` member to an object, as the registry
does on every document it serves. -/
def json_add_url (j : JsonVal) (u : String) : JsonVal :=
  match j with
  | .obj fields => .obj (fields ++ [("url", .str u)])
  | other => other

/-! ## Matchers (acvp_meta_oe.c)

The matchers mutate `def_oe` (they write the extracted identifier), so they
return the updated record next to the C return code.  They are split into
one definition per consecutive block of the C function; each definition
names the block it embeds. -/

/-- `acvp_oe_match_dep_sw`, final block (lines 241-243): "Last step as we
got a successful match: get the ID". -/
def acvp_oe_match_dep_sw_url (e : DefOe) (json_oe : JsonVal) : Int × DefOe :=
  match json_get_string json_oe "url" with
  | .error r => (r, e)
  | .ok s =>
    match acvp_get_id_from_url s with
    | .error r => (r, e)
    | .ok id => (0, { e with acvp_oe_dep_sw_id := id })

/-- `acvp_oe_match_dep_sw`, description block (lines 231-239): the remote
`description` must equal the local description, or the environment name
when no description is configured. -/
def acvp_oe_match_dep_sw_desc (e : DefOe) (json_oe : JsonVal) : Int × DefOe :=
  match json_get_string json_oe "description" with
  | .error r => (r, e)
  | .ok s =>
    let r :=
      match e.oe_description with
      | some _ => acvp_str_match e.oe_description s
      | none => acvp_str_match e.oe_env_name s
    if r ≠ 0 then (r, e) else acvp_oe_match_dep_sw_url e json_oe

/-- `acvp_oe_match_dep_sw`, presence block (lines 209-229): when the local
entity declares neither `swid` nor `cpe`, a remote string member of either
name is a mismatch (`-ENOENT`); a missing or non-string remote member is
accepted. -/
def acvp_oe_match_dep_sw_presence (e : DefOe) (json_oe : JsonVal) : Int × DefOe :=
  if e.swid.isNone && e.cpe.isNone then
    match json_get_string json_oe "swid" with
    | .ok _ => (-ENOENT, e)
    | .error _ =>
      match json_get_string json_oe "cpe" with
      | .ok _ => (-ENOENT, e)
      | .error _ => acvp_oe_match_dep_sw_desc e json_oe
  else acvp_oe_match_dep_sw_desc e json_oe

/-- `acvp_oe_match_dep_sw`, local-swid block (lines 203-207). -/
def acvp_oe_match_dep_sw_swid (e : DefOe) (json_oe : JsonVal) : Int × DefOe :=
  match e.swid with
  | some _ =>
    match json_get_string json_oe "swid" with
    | .error r => (r, e)
    | .ok s =>
      let r := acvp_str_match e.swid s
      if r ≠ 0 then (r, e) else acvp_oe_match_dep_sw_presence e json_oe
  | none => acvp_oe_match_dep_sw_presence e json_oe

/-- `acvp_oe_match_dep_sw`, local-cpe block (lines 197-201). -/
def acvp_oe_match_dep_sw_cpe (e : DefOe) (json_oe : JsonVal) : Int × DefOe :=
  match e.cpe with
  | some _ =>
    match json_get_string json_oe "cpe" with
    | .error r => (r, e)
    | .ok s =>
      let r := acvp_str_match e.cpe s
      if r ≠ 0 then (r, e) else acvp_oe_match_dep_sw_swid e json_oe
  | none => acvp_oe_match_dep_sw_swid e json_oe

/-- `acvp_oe_match_dep_sw` (acvp_meta_oe.c lines 187-247): match a software
dependency document against the local entity, field by field, writing the
identifier extracted from the document's `url` on full success. -/
def acvp_oe_match_dep_sw (e : DefOe) (json_oe : JsonVal) : Int × DefOe :=
  match json_get_string json_oe "name" with
  | .error r => (r, e)
  | .ok s =>
    let r := acvp_str_match e.oe_env_name s
    if r ≠ 0 then (r, e) else acvp_oe_match_dep_sw_cpe e json_oe

/-- One `json_get_string` + `acvp_str_match` step of the processor matcher. -/
def acvp_str_field_match (json_oe : JsonVal) (key : String)
    (expected : Option String) : Int :=
  match json_get_string json_oe key with
  | .error r => r
  | .ok s => acvp_str_match expected s

/-- `acvp_oe_match_dep_proc` (acvp_meta_oe.c lines 249-277): match a
processor dependency document (manufacturer, family, name, series, then the
identifier from `url`). -/
def acvp_oe_match_dep_proc (e : DefOe) (json_oe : JsonVal) : Int × DefOe :=
  let r := acvp_str_field_match json_oe "manufacturer" e.manufacturer
  if r ≠ 0 then (r, e) else
  let r := acvp_str_field_match json_oe "family" e.proc_family
  if r ≠ 0 then (r, e) else
  let r := acvp_str_field_match json_oe "name" e.proc_name
  if r ≠ 0 then (r, e) else
  let r := acvp_str_field_match json_oe "series" e.proc_series
  if r ≠ 0 then (r, e) else
  match json_get_string json_oe "url" with
  | .error r => (r, e)
  | .ok s =>
    match acvp_get_id_from_url s with
    | .error r => (r, e)
    | .ok id => (0, { e with acvp_oe_dep_proc_id := id })

/-- `acvp_oe_match_oe_deps_matcher` (acvp_meta_oe.c lines 599-632): match
one dependency found inside (or referenced from) a remote OE document.  A
software document is only considered when the local entity declares an
environment name; on a no-match (`-ENOENT`) from either dependency matcher
the OE's own identifier is reset to 0. -/
def acvp_oe_match_oe_deps_matcher (e : DefOe) (dep : JsonVal) : Int × DefOe :=
  match json_get_string dep "type" with
  | .error r => (r, e)
  | .ok s =>
    if e.oe_env_name.isSome && strStartsWith s "software" then
      let rm := acvp_oe_match_dep_sw e dep
      let e2 := if rm.1 = -ENOENT then { rm.2 with acvp_oe_id := 0 } else rm.2
      (rm.1, e2)
    else if strStartsWith s "processor" then
      let rm := acvp_oe_match_dep_proc e dep
      let e2 := if rm.1 = -ENOENT then { rm.2 with acvp_oe_id := 0 } else rm.2
      (rm.1, e2)
    else (-ENOENT, e)

/-- `acvp_oe_generate_oe_string` (acvp_meta_oe.c lines 560-597): the
composite human-readable OE name "env on manufacturer series name", where
the processor name is dropped when the series already begins with it. -/
def acvp_oe_generate_oe_string (def_oe : DefOe) : String :=
  let s :=
    match def_oe.oe_env_name with
    | some n =>
      n ++ (if def_oe.manufacturer.isSome || def_oe.proc_series.isSome
              || def_oe.proc_name.isSome then " on" else "")
    | none => ""
  let s :=
    match def_oe.manufacturer with
    | some m => s ++ " " ++ m
    | none => s
  match def_oe.proc_series with
  | some ps =>
    let s := s ++ " " ++ ps
    match def_oe.proc_name with
    | some pn => if strStartsWith ps pn then s else s ++ " " ++ pn
    | none => s
  | none =>
    match def_oe.proc_name with
    | some pn => s ++ " " ++ pn
    | none => s

/-! ## Dependency registration (acvp_meta_oe.c) -/

/-- `enum acvp_oe_dep_types` (acvp_meta_oe.c lines 31-34). -/
inductive AcvpOeDepType where
  | sw | proc
deriving DecidableEq

/-- `enum acvp_http_type` (request_helper.h, not under src/): the verb the
reconciliation chose.  Spec §4.5: "exactly one of {none, create, update,
delete}". -/
inductive AcvpHttpType where
  | post | put | delete | none
deriving DecidableEq

/-- One HTTP operation sent to the registry. -/
structure AcvpRequest where
  method : AcvpHttpType
  url : String
  body : Option JsonVal

/-- The user-intent options consulted by `acvp_oe_register_dep`
(`struct acvp_opts_ctx` / `struct acvp_req_ctx`, internal.h, not under
src/; field names as used in acvp_meta_oe.c). -/
structure AcvpOpts where
  register_new_oe : Bool := false
  dump_register : Bool := false

/-- Modelled from the spec: `acvp_meta_register` is not under src/.  Spec §6:
`POST /{collection}` creates with a Builder-produced document body, `PUT`
updates, `DELETE` deletes; spec §4.5: exactly one HTTP operation is issued.
The identifier written back from the response is outside this model. -/
def acvp_meta_register (body : Option JsonVal) (url : String)
    (submit_type : AcvpHttpType) : Int × List AcvpRequest :=
  (0, [⟨submit_type, url, body⟩])

/-- `acvp_oe_register_dep_build` (acvp_meta_oe.c lines 336-366): select the
builder for the dependency type.  (The identifier out-pointer it also
returns is implicit in which field the caller updates.) -/
def acvp_oe_register_dep_build (def_oe : DefOe) (ty : AcvpOeDepType) :
    Option JsonVal :=
  match ty with
  | .proc => some (acvp_oe_build_dep_proc def_oe).2
  | .sw => (acvp_oe_build_dep_sw def_oe).2

/-- `acvp_oe_register_dep` (acvp_meta_oe.c lines 369-408): build the
dependency document; if the builder produced none, succeed with no network
operation.  Unless dump mode, the auto-register option or a prior
confirmation (`asked`) suppresses it, ask the user once (`ask_yes` is an
external capability, passed in as `askDeclines`; `true` means the user
declined, upon which `-ENOENT` is returned with no operation).  Otherwise
hand the document to `acvp_meta_register` for the single HTTP operation on
the dependency collection. -/
def acvp_oe_register_dep (opts : AcvpOpts) (askDeclines : Bool)
    (def_oe : DefOe) (ty : AcvpOeDepType) (submit_type : AcvpHttpType)
    (asked : Bool) : Int × List AcvpRequest :=
  match acvp_oe_register_dep_build def_oe ty with
  | Option.none => (0, [])
  | some doc =>
    if ¬ opts.dump_register && ¬ opts.register_new_oe && ¬ asked
        && askDeclines then
      (-ENOENT, [])
    else
      acvp_meta_register (some doc) acvp_dependency_url submit_type

/-! ## OE document builder (acvp_meta_oe.c) -/

/-- `acvp_oe_build_oe`, first block (acvp_meta_oe.c lines 879-909): when
either dependency identifier is unset, the dependencies are first validated
against the registry (unless dump mode; on failure the builder aborts with
the code), and every dependency whose identifier is still unset is built as
an embedded document - a software dependency only when its builder produced
one.  Returns (code, embedded-dependency array, updated entity).  The C
tests `if (!ret)` / `if (!...)` appear below with the zero test spelled
positively. -/
def acvp_oe_build_oe_deps (validate_all_dep : DefOe → Int × DefOe)
    (dump_register : Bool) (def_oe : DefOe) : Int × List JsonVal × DefOe :=
  if def_oe.acvp_oe_dep_proc_id = 0 ∨ def_oe.acvp_oe_dep_sw_id = 0 then
    let v := if dump_register then ((0 : Int), def_oe)
             else validate_all_dep def_oe
    if v.1 = 0 then
      (0,
        (if v.2.acvp_oe_dep_proc_id = 0
          then [(acvp_oe_build_dep_proc v.2).2] else [])
        ++ (if v.2.acvp_oe_dep_sw_id = 0 then
              match (acvp_oe_build_dep_sw v.2).2 with
              | some d => [d]
              | Option.none => []
            else []),
        v.2)
    else (v.1, [], v.2)
  else (0, [], def_oe)

/-- `acvp_oe_build_oe`, second block (acvp_meta_oe.c lines 911-967): the
resolved processor dependency is referenced by URL; a resolved software
dependency is referenced by URL only when the environment name is non-NULL
(a software identifier with a NULL environment name is the "inconsistent
configuration": only reported, neither used nor cleared); then the OE
document is assembled from the composite name, the URL array (when
nonempty) and the embedded-dependency array (when nonempty). -/
def acvp_oe_build_oe_assemble (deparray : List JsonVal) (e1 : DefOe) :
    JsonVal :=
  let depurl : List JsonVal :=
    (if e1.acvp_oe_dep_proc_id = 0 then []
     else [.str (acvp_dep_url e1.acvp_oe_dep_proc_id)])
    ++ (match e1.oe_env_name with
        | some _ =>
          if e1.acvp_oe_dep_sw_id = 0 then []
          else [.str (acvp_dep_url e1.acvp_oe_dep_sw_id)]
        | Option.none => [])
  .obj ([("name", .str (acvp_oe_generate_oe_string e1))]
    ++ (if depurl.isEmpty then [] else [("dependencyUrls", JsonVal.arr depurl)])
    ++ (if deparray.isEmpty then [] else [("dependencies", JsonVal.arr deparray)]))

/-- `acvp_oe_build_oe` (acvp_meta_oe.c lines 866-974): the two blocks
chained.  `validate_all_dep` abstracts `acvp_oe_validate_all_dep`, whose
transport bottom (`acvp_paging_get`) is not under src/; it returns the C
code and the possibly-updated entity.  Returns (code, document, updated
entity); allocation failures are not modelled. -/
def acvp_oe_build_oe (validate_all_dep : DefOe → Int × DefOe)
    (dump_register : Bool) (def_oe : DefOe) : Int × Option JsonVal × DefOe :=
  let s := acvp_oe_build_oe_deps validate_all_dep dump_register def_oe
  if s.1 = 0 then (0, some (acvp_oe_build_oe_assemble s.2.1 s.2.2), s.2.2)
  else (s.1, Option.none, s.2.2)

/-! ## The OE handler (acvp_meta_oe.c, acvp_oe_handle)

`acvp_oe_handle` strings together collaborator calls (the entity lock, the
async-request poller, the per-step validators and the registration calls)
whose implementations either are not under src/ or perform network I/O.
They are abstracted as oracles; the definition below embeds only the
control flow of acvp_meta_oe.c lines 1169-1264, and additionally records
the order in which the steps run as a list of events. -/

/-- The observable steps of one `acvp_oe_handle` run. -/
inductive OeEvent where
  | lockOe | unlockOe
  | pollProcDep | pollSwDep | pollOe
  | regDepProc | regDepSw | regOe
  | valOneDepProc | valOneDepSw | valOneOe
  | valAllDep | valAllOe
deriving DecidableEq

/-- The three async-request polls. -/
def OeEvent.isPoll : OeEvent → Bool
  | .pollProcDep | .pollSwDep | .pollOe => true
  | _ => false

/-- The reconciliation steps: every validate/search/register call. -/
def OeEvent.isRecon : OeEvent → Bool
  | .regDepProc | .regDepSw | .regOe => true
  | .valOneDepProc | .valOneDepSw | .valOneOe => true
  | .valAllDep | .valAllOe => true
  | _ => false

/-- Modelled from the spec: the collaborators `acvp_oe_handle` invokes.
`getOeId`/`putOeId` are the entity lock acquire/release with identifier
load/persist (spec §4.2, definition.h prototypes); `obtainRequestResult`
is `acvp_meta_obtain_request_result`, the async-request poll on one
identifier (spec §4.7); the remaining members abstract the validate and
register functions of acvp_meta_oe.c, whose own transport bottoms are not
under src/.  Each returns the C return code next to its updated data. -/
structure OeOracles where
  getOeId : DefOe → Int × DefOe
  putOeId : DefOe → Int
  obtainRequestResult : Nat → Int × Nat
  validateOneDep : AcvpOeDepType → DefOe → Int × DefOe
  validateOneOe : DefOe → Int × DefOe
  validateAllDep : DefOe → Int × DefOe
  validateAllOe : DefOe → Int × DefOe
  registerDep : AcvpOeDepType → DefOe → Int × DefOe
  registerOe : DefOe → Int × DefOe

/-- `acvp_oe_handle`, lines 1241-1249: the known-OE path.  Re-validate the
OE by identifier; on success, search the dependency collection when either
dependency is still unresolved.  `tr` is the trace accumulated so far. -/
def acvp_oe_handle_known_oe (O : OeOracles) (eB : DefOe)
    (tr : List OeEvent) : Int × DefOe × List OeEvent :=
  let vC := O.validateOneOe eB
  if vC.1 ≠ 0 then
    (Int.lor vC.1 (O.putOeId vC.2), vC.2, tr ++ [.valOneOe, .unlockOe])
  else if vC.2.acvp_oe_dep_proc_id = 0
      ∨ (vC.2.oe_env_name.isSome ∧ vC.2.acvp_oe_dep_sw_id = 0) then
    let vD := O.validateAllDep vC.2
    (Int.lor vD.1 (O.putOeId vD.2), vD.2,
      tr ++ [.valOneOe, .valAllDep, .unlockOe])
  else
    (Int.lor 0 (O.putOeId vC.2), vC.2, tr ++ [.valOneOe, .unlockOe])

/-- `acvp_oe_handle`, lines 1250-1256: the search path.  Search the
dependency collection when requested or needed, then search the OE
collection. -/
def acvp_oe_handle_search_oe (O : OeOracles) (show_db_entries : Bool)
    (eB : DefOe) (tr : List OeEvent) : Int × DefOe × List OeEvent :=
  let sE : Int × DefOe × List OeEvent :=
    if show_db_entries ∨ eB.acvp_oe_dep_proc_id = 0
        ∨ (eB.oe_env_name.isSome ∧ eB.acvp_oe_dep_sw_id = 0) then
      let v := O.validateAllDep eB
      (v.1, v.2, [.valAllDep])
    else (0, eB, [])
  if sE.1 ≠ 0 then
    (Int.lor sE.1 (O.putOeId sE.2.1), sE.2.1, tr ++ sE.2.2 ++ [.unlockOe])
  else
    let vF := O.validateAllOe sE.2.1
    (Int.lor vF.1 (O.putOeId vF.2), vF.2,
      tr ++ sE.2.2 ++ [.valAllOe, .unlockOe])

/-- `acvp_oe_handle`, lines 1228-1257: the software-dependency validation
(when its identifier is set and an environment name exists; the
inconsistent configuration is only logged), then the known-OE or the
search path.  `rA` is the code accumulated from the processor validation
(`ret`, possibly `-EAGAIN`). -/
def acvp_oe_handle_sw_stage (O : OeOracles) (show_db_entries : Bool)
    (rA : Int) (eA : DefOe) (tr : List OeEvent) : Int × DefOe × List OeEvent :=
  let sB : Int × DefOe × List OeEvent :=
    if eA.acvp_oe_dep_sw_id ≠ 0 then
      if eA.oe_env_name.isSome then
        let v := O.validateOneDep .sw eA
        (Int.lor rA v.1, v.2, [.valOneDepSw])
      else (rA, eA, [])
    else (rA, eA, [])
  if sB.1 ≠ 0 then
    (Int.lor sB.1 (O.putOeId sB.2.1), sB.2.1, tr ++ sB.2.2 ++ [.unlockOe])
  else
    if sB.2.1.acvp_oe_id ≠ 0 ∧ ¬ show_db_entries then
      acvp_oe_handle_known_oe O sB.2.1 (tr ++ sB.2.2)
    else
      acvp_oe_handle_search_oe O show_db_entries sB.2.1 (tr ++ sB.2.2)

/-- `acvp_oe_handle`, reconciliation phase (acvp_meta_oe.c lines
1220-1257): runs after the three async-request polls succeeded, on the
polled entity.  Validates the processor dependency when its identifier is
set (tolerating `-EAGAIN`), then hands over to the software-dependency
stage.  `ret |= ...` accumulation is `Int.lor`, exactly as the C
bitwise-or on `int` codes; the trailing unlock (`acvp_def_put_oe_id`) of
every path is included in the stages. -/
def acvp_oe_handle_recon (O : OeOracles) (show_db_entries : Bool)
    (e : DefOe) : Int × DefOe × List OeEvent :=
  let sA : Int × DefOe × List OeEvent :=
    if e.acvp_oe_dep_proc_id ≠ 0 then
      let v := O.validateOneDep .proc e
      (v.1, v.2, [.valOneDepProc])
    else (0, e, [])
  if sA.1 ≠ 0 ∧ sA.1 ≠ -EAGAIN then
    (Int.lor sA.1 (O.putOeId sA.2.1), sA.2.1, sA.2.2 ++ [.unlockOe])
  else
    acvp_oe_handle_sw_stage O show_db_entries sA.1 sA.2.1 sA.2.2

/-- `acvp_oe_handle` (acvp_meta_oe.c lines 1169-1264): lock, then either
dump-register everything (dump mode), or poll the three identifiers for
outstanding async requests and - only when all three polls succeeded -
run the reconciliation phase; unlock at the end of every path past the
lock. -/
def acvp_oe_handle (O : OeOracles) (dump_register show_db_entries : Bool)
    (e0 : DefOe) : Int × DefOe × List OeEvent :=
  let l := O.getOeId e0
  if l.1 ≠ 0 then (l.1, l.2, []) else
  let e := l.2
  if dump_register then
    let s1 := O.registerDep .proc e
    let s2 := O.registerDep .sw s1.2
    let s3 := O.registerOe s2.2
    (Int.lor 0 (O.putOeId s3.2), s3.2,
      [.lockOe, .regDepProc, .regDepSw, .regOe, .unlockOe])
  else
    let p1 := O.obtainRequestResult e.acvp_oe_dep_proc_id
    let e := { e with acvp_oe_dep_proc_id := p1.2 }
    let p2 := O.obtainRequestResult e.acvp_oe_dep_sw_id
    let e := { e with acvp_oe_dep_sw_id := p2.2 }
    let p3 := O.obtainRequestResult e.acvp_oe_id
    let e := { e with acvp_oe_id := p3.2 }
    let ret2 := Int.lor p1.1 (Int.lor p2.1 p3.1)
    if ret2 ≠ 0 then
      (Int.lor ret2 (O.putOeId e), e,
        [.lockOe, .pollProcDep, .pollSwDep, .pollOe, .unlockOe])
    else
      let s := acvp_oe_handle_recon O show_db_entries e
      (s.1, s.2.1,
        [.lockOe, .pollProcDep, .pollSwDep, .pollOe] ++ s.2.2)

/-- All-success oracles: used to instantiate `acvp_oe_handle` on concrete
runs. -/
def trivOeOracles : OeOracles where
  getOeId e := (0, e)
  putOeId _ := 0
  obtainRequestResult n := (0, n)
  validateOneDep _ e := (0, e)
  validateOneOe e := (0, e)
  validateAllDep e := (0, e)
  validateAllOe e := (0, e)
  registerDep _ e := (0, e)
  registerOe e := (0, e)

/-! ## Helper lemmas -/

theorem nat_lor_eq_zero_iff (m n : Nat) : m ||| n = 0 ↔ m = 0 ∧ n = 0 := by
  constructor
  · intro h
    have hb : ∀ i, (m ||| n).testBit i = false := by
      intro i; rw [h]; exact Nat.zero_testBit i
    constructor
    · apply Nat.eq_of_testBit_eq
      intro i
      have := hb i
      rw [Nat.testBit_or] at this
      rw [Nat.zero_testBit]
      exact (Bool.or_eq_false_iff.mp this).1
    · apply Nat.eq_of_testBit_eq
      intro i
      have := hb i
      rw [Nat.testBit_or] at this
      rw [Nat.zero_testBit]
      exact (Bool.or_eq_false_iff.mp this).2
  · rintro ⟨rfl, rfl⟩
    rfl

theorem int_lor_eq_zero_iff (a b : Int) : Int.lor a b = 0 ↔ a = 0 ∧ b = 0 := by
  cases a with
  | ofNat m =>
    cases b with
    | ofNat n =>
      constructor
      · intro h
        have hmn : m ||| n = 0 := Int.ofNat.inj h
        obtain ⟨h1, h2⟩ := (nat_lor_eq_zero_iff m n).mp hmn
        subst h1; subst h2; exact ⟨rfl, rfl⟩
      · rintro ⟨ha, hb⟩
        have h1 : m = 0 := Int.ofNat.inj ha
        have h2 : n = 0 := Int.ofNat.inj hb
        subst h1; subst h2; rfl
    | negSucc n =>
      simp only [Int.lor]
      constructor
      · intro h; exact absurd h (by simp)
      · rintro ⟨_, hb⟩; exact absurd hb (by simp)
  | negSucc m =>
    cases b with
    | ofNat n =>
      simp only [Int.lor]
      constructor
      · intro h; exact absurd h (by simp)
      · rintro ⟨ha, _⟩; exact absurd ha (by simp)
    | negSucc n =>
      simp only [Int.lor]
      constructor
      · intro h; exact absurd h (by simp)
      · rintro ⟨ha, _⟩; exact absurd ha (by simp)

theorem testBit_mask (i : Nat) :
    ACVP_REQUEST_MASK.testBit i = (decide (i = 30) || decide (i = 29) || decide (i = 28)) := by
  rw [ACVP_REQUEST_MASK, ACVP_REQUEST_INITIAL, ACVP_REQUEST_PROCESSING,
    ACVP_REQUEST_REJECTED]
  rw [Nat.testBit_or, Nat.testBit_or]
  rw [Nat.testBit_shiftLeft, Nat.testBit_shiftLeft, Nat.testBit_shiftLeft]
  rcases Nat.lt_or_ge i 28 with h | h
  · have h30 : ¬ (30 ≤ i) := by omega
    have h29 : ¬ (29 ≤ i) := by omega
    have h28 : ¬ (28 ≤ i) := by omega
    simp [h30, h29, h28]
    omega
  · have e1 : Nat.testBit 1 (i - 30) = decide (i - 30 = 0) := by
      rcases Nat.eq_or_lt_of_le (Nat.zero_le (i - 30)) with h0 | h0
      · rw [← h0]; simp
      · have : i - 30 ≠ 0 := by omega
        rcases Nat.exists_eq_succ_of_ne_zero this with ⟨k, hk⟩
        rw [hk]
        simp [Nat.testBit_succ]
    have e2 : Nat.testBit 1 (i - 29) = decide (i - 29 = 0) := by
      rcases Nat.eq_or_lt_of_le (Nat.zero_le (i - 29)) with h0 | h0
      · rw [← h0]; simp
      · have : i - 29 ≠ 0 := by omega
        rcases Nat.exists_eq_succ_of_ne_zero this with ⟨k, hk⟩
        rw [hk]
        simp [Nat.testBit_succ]
    have e3 : Nat.testBit 1 (i - 28) = decide (i - 28 = 0) := by
      rcases Nat.eq_or_lt_of_le (Nat.zero_le (i - 28)) with h0 | h0
      · rw [← h0]; simp
      · have : i - 28 ≠ 0 := by omega
        rcases Nat.exists_eq_succ_of_ne_zero this with ⟨k, hk⟩
        rw [hk]
        simp [Nat.testBit_succ]
    rw [e1, e2, e3]
    by_cases h30 : i = 30 <;> by_cases h29 : i = 29 <;> by_cases h28 : i = 28 <;>
      simp_all <;> omega

theorem land_mask_eq_zero_iff (id : Nat) :
    id &&& ACVP_REQUEST_MASK = 0 ↔
      id.testBit 30 = false ∧ id.testBit 29 = false ∧ id.testBit 28 = false := by
  constructor
  · intro h
    have hb : ∀ i, (id.testBit i && ACVP_REQUEST_MASK.testBit i) = false := by
      intro i
      rw [← Nat.testBit_and, h, Nat.zero_testBit]
    refine ⟨?_, ?_, ?_⟩
    · have := hb 30
      rw [testBit_mask] at this
      simpa using this
    · have := hb 29
      rw [testBit_mask] at this
      simpa using this
    · have := hb 28
      rw [testBit_mask] at this
      simpa using this
  · rintro ⟨h30, h29, h28⟩
    apply Nat.eq_of_testBit_eq
    intro i
    rw [Nat.testBit_and, testBit_mask, Nat.zero_testBit]
    by_cases e30 : i = 30
    · subst e30; simp [h30]
    · by_cases e29 : i = 29
      · subst e29; simp [h29]
      · by_cases e28 : i = 28
        · subst e28; simp [h28]
        · simp [e30, e29, e28]

theorem json_get_string_error_vals {j : JsonVal} {k : String} {r : Int}
    (h : json_get_string j k = .error r) : r = -ENOENT ∨ r = -EINVAL := by
  unfold json_get_string json_find_key at h
  cases hx : json_object_object_get_ex j k with
  | none =>
    rw [hx] at h
    simp only [ENOENT, EINVAL] at h ⊢
    simp at h
    omega
  | some o =>
    rw [hx] at h
    cases o <;> simp [JsonVal.typeOf, ENOENT, EINVAL] at h ⊢ <;> omega

theorem json_get_string_error_ne_zero {j : JsonVal} {k : String} {r : Int}
    (h : json_get_string j k = .error r) : r ≠ 0 := by
  rcases json_get_string_error_vals h with h1 | h1 <;> subst h1 <;> decide

theorem json_get_string_of_lookup_str {j : JsonVal} {k : String} {s : String}
    (h : json_object_object_get_ex j k = some (.str s)) :
    json_get_string j k = .ok s := by
  unfold json_get_string json_find_key
  rw [h]
  rfl

theorem acvp_get_id_from_url_error {u : String} {r : Int}
    (h : acvp_get_id_from_url u = .error r) : r = -EINVAL := by
  unfold acvp_get_id_from_url acvp_get_trailing_number at h
  cases hp : parseDecimal (afterLastSlash u.data) with
  | none => rw [hp] at h; injection h with h2; exact h2.symm
  | some n => rw [hp] at h; cases h

/-- Every matcher stage either hands over to the next stage with the entity
untouched, or exits with a nonzero code and the entity untouched. -/
theorem acvp_oe_match_dep_sw_desc_cases (e : DefOe) (j : JsonVal) :
    acvp_oe_match_dep_sw_desc e j = acvp_oe_match_dep_sw_url e j ∨
      ((acvp_oe_match_dep_sw_desc e j).1 ≠ 0 ∧
        (acvp_oe_match_dep_sw_desc e j).2 = e) := by
  unfold acvp_oe_match_dep_sw_desc
  cases hjs : json_get_string j "description" with
  | error r =>
    exact Or.inr ⟨json_get_string_error_ne_zero hjs, rfl⟩
  | ok s =>
    dsimp only
    split
    · next h => exact Or.inr ⟨h, rfl⟩
    · exact Or.inl rfl

theorem acvp_oe_match_dep_sw_presence_cases (e : DefOe) (j : JsonVal) :
    acvp_oe_match_dep_sw_presence e j = acvp_oe_match_dep_sw_desc e j ∨
      ((acvp_oe_match_dep_sw_presence e j).1 ≠ 0 ∧
        (acvp_oe_match_dep_sw_presence e j).2 = e) := by
  unfold acvp_oe_match_dep_sw_presence
  split
  · cases hjs : json_get_string j "swid" with
    | ok s =>
      dsimp only
      exact Or.inr ⟨by decide, rfl⟩
    | error r =>
      dsimp only
      cases hjc : json_get_string j "cpe" with
      | ok s =>
        dsimp only
        exact Or.inr ⟨by decide, rfl⟩
      | error r2 =>
        dsimp only
        exact Or.inl rfl
  · exact Or.inl rfl

theorem acvp_oe_match_dep_sw_swid_cases (e : DefOe) (j : JsonVal) :
    acvp_oe_match_dep_sw_swid e j = acvp_oe_match_dep_sw_presence e j ∨
      ((acvp_oe_match_dep_sw_swid e j).1 ≠ 0 ∧
        (acvp_oe_match_dep_sw_swid e j).2 = e) := by
  unfold acvp_oe_match_dep_sw_swid
  cases e.swid with
  | none => exact Or.inl rfl
  | some w =>
    cases hjs : json_get_string j "swid" with
    | error r => exact Or.inr ⟨json_get_string_error_ne_zero hjs, rfl⟩
    | ok s =>
      dsimp only
      split
      · next h => exact Or.inr ⟨h, rfl⟩
      · exact Or.inl rfl

theorem acvp_oe_match_dep_sw_cpe_cases (e : DefOe) (j : JsonVal) :
    acvp_oe_match_dep_sw_cpe e j = acvp_oe_match_dep_sw_swid e j ∨
      ((acvp_oe_match_dep_sw_cpe e j).1 ≠ 0 ∧
        (acvp_oe_match_dep_sw_cpe e j).2 = e) := by
  unfold acvp_oe_match_dep_sw_cpe
  cases e.cpe with
  | none => exact Or.inl rfl
  | some c =>
    cases hjs : json_get_string j "cpe" with
    | error r => exact Or.inr ⟨json_get_string_error_ne_zero hjs, rfl⟩
    | ok s =>
      dsimp only
      split
      · next h => exact Or.inr ⟨h, rfl⟩
      · exact Or.inl rfl

/-- The software matcher either runs through to the final url block with the
entity untouched, or exits earlier with a nonzero code and the entity
untouched. -/
theorem acvp_oe_match_dep_sw_cases (e : DefOe) (j : JsonVal) :
    acvp_oe_match_dep_sw e j = acvp_oe_match_dep_sw_url e j ∨
      ((acvp_oe_match_dep_sw e j).1 ≠ 0 ∧ (acvp_oe_match_dep_sw e j).2 = e) := by
  have hname : acvp_oe_match_dep_sw e j = acvp_oe_match_dep_sw_cpe e j ∨
      ((acvp_oe_match_dep_sw e j).1 ≠ 0 ∧ (acvp_oe_match_dep_sw e j).2 = e) := by
    unfold acvp_oe_match_dep_sw
    cases hjs : json_get_string j "name" with
    | error r => exact Or.inr ⟨json_get_string_error_ne_zero hjs, rfl⟩
    | ok s =>
      dsimp only
      split
      · next h => exact Or.inr ⟨h, rfl⟩
      · exact Or.inl rfl
  rcases hname with h1 | h1
  · rw [h1]
    rcases acvp_oe_match_dep_sw_cpe_cases e j with h2 | h2
    · rw [h2]
      rcases acvp_oe_match_dep_sw_swid_cases e j with h3 | h3
      · rw [h3]
        rcases acvp_oe_match_dep_sw_presence_cases e j with h4 | h4
        · rw [h4]
          rcases acvp_oe_match_dep_sw_desc_cases e j with h5 | h5
          · rw [h5]; exact Or.inl rfl
          · exact Or.inr h5
        · exact Or.inr h4
      · exact Or.inr h3
    · exact Or.inr h2
  · exact Or.inr h1

/-- The final url block of the software matcher: a nonzero exit leaves the
entity untouched; a zero exit writes exactly the identifier extracted from
the document's url. -/
theorem acvp_oe_match_dep_sw_url_spec (e : DefOe) (j : JsonVal) :
    ((acvp_oe_match_dep_sw_url e j).1 ≠ 0 → (acvp_oe_match_dep_sw_url e j).2 = e) ∧
      ((acvp_oe_match_dep_sw_url e j).1 = 0 →
        ∃ u id, json_get_string j "url" = .ok u ∧
          acvp_get_id_from_url u = .ok id ∧
          (acvp_oe_match_dep_sw_url e j).2 = { e with acvp_oe_dep_sw_id := id }) := by
  unfold acvp_oe_match_dep_sw_url
  cases hju : json_get_string j "url" with
  | error r =>
    exact ⟨fun _ => rfl, fun h0 => absurd h0 (json_get_string_error_ne_zero hju)⟩
  | ok u =>
    dsimp only
    cases hid : acvp_get_id_from_url u with
    | error r =>
      refine ⟨fun _ => rfl, fun h0 => ?_⟩
      have h0x : r = 0 := h0
      rw [acvp_get_id_from_url_error hid] at h0x
      exact absurd h0x (by decide)
    | ok id => exact ⟨fun h => absurd rfl h, fun _ => ⟨u, id, rfl, hid, rfl⟩⟩

/-- Frame property of the software matcher: nonzero exit leaves the entity
untouched, zero exit writes exactly the identifier from the document url. -/
theorem acvp_oe_match_dep_sw_frame (e : DefOe) (j : JsonVal) :
    ((acvp_oe_match_dep_sw e j).1 ≠ 0 → (acvp_oe_match_dep_sw e j).2 = e) ∧
      ((acvp_oe_match_dep_sw e j).1 = 0 →
        ∃ u id, json_get_string j "url" = .ok u ∧
          acvp_get_id_from_url u = .ok id ∧
          (acvp_oe_match_dep_sw e j).2 = { e with acvp_oe_dep_sw_id := id }) := by
  rcases acvp_oe_match_dep_sw_cases e j with h | h
  · rw [h]
    exact acvp_oe_match_dep_sw_url_spec e j
  · exact ⟨fun _ => h.2, fun h0 => absurd h0 h.1⟩

/-- Frame property of the processor matcher. -/
theorem acvp_oe_match_dep_proc_frame (e : DefOe) (j : JsonVal) :
    ((acvp_oe_match_dep_proc e j).1 ≠ 0 → (acvp_oe_match_dep_proc e j).2 = e) ∧
      ((acvp_oe_match_dep_proc e j).1 = 0 →
        ∃ u id, json_get_string j "url" = .ok u ∧
          acvp_get_id_from_url u = .ok id ∧
          (acvp_oe_match_dep_proc e j).2 = { e with acvp_oe_dep_proc_id := id }) := by
  unfold acvp_oe_match_dep_proc
  dsimp only
  split
  · next h => exact ⟨fun _ => rfl, fun h0 => absurd h0 h⟩
  · split
    · next h => exact ⟨fun _ => rfl, fun h0 => absurd h0 h⟩
    · split
      · next h => exact ⟨fun _ => rfl, fun h0 => absurd h0 h⟩
      · split
        · next h => exact ⟨fun _ => rfl, fun h0 => absurd h0 h⟩
        · cases hju : json_get_string j "url" with
          | error r =>
            exact ⟨fun _ => rfl,
              fun h0 => absurd h0 (json_get_string_error_ne_zero hju)⟩
          | ok u =>
            dsimp only
            cases hid : acvp_get_id_from_url u with
            | error r =>
              refine ⟨fun _ => rfl, fun h0 => ?_⟩
              have h0x : r = 0 := h0
              rw [acvp_get_id_from_url_error hid] at h0x
              exact absurd h0x (by decide)
            | ok id => exact ⟨fun h => absurd rfl h, fun _ => ⟨u, id, rfl, hid, rfl⟩⟩

/-! ## Claim theorems -/

theorem acvp_str_match_vals (x : Option String) (s : String) :
    acvp_str_match x s = 0 ∨ acvp_str_match x s = -ENOENT := by
  unfold acvp_str_match
  cases x with
  | none => exact Or.inl rfl
  | some e =>
    dsimp only
    by_cases h : e = s
    · rw [if_pos h]; exact Or.inl rfl
    · rw [if_neg h]; exact Or.inr rfl

theorem json_get_string_of_lookup_none {j : JsonVal} {k : String}
    (h : json_object_object_get_ex j k = none) :
    json_get_string j k = .error (-ENOENT) := by
  unfold json_get_string json_find_key
  rw [h]

/-- C5: `acvp_valid_id` returns false for the identifier 0 and for every
32-bit identifier with one of the three reserved status bits
(pending-submission `1<<30`, pending-processing `1<<29`, rejected `1<<28`)
set, and true for every other 32-bit identifier. -/
theorem claim_C5_acvp_valid_id (id : Nat) (hw : id < 2 ^ 32) :
    (id = 0 → acvp_valid_id id = false) ∧
    ((id.testBit 30 = true ∨ id.testBit 29 = true ∨ id.testBit 28 = true) →
      acvp_valid_id id = false) ∧
    ((id ≠ 0 ∧ id.testBit 30 = false ∧ id.testBit 29 = false ∧
        id.testBit 28 = false) → acvp_valid_id id = true) := by
  clear hw
  unfold acvp_valid_id
  refine ⟨fun h => by simp [h], fun h => ?_, fun h => ?_⟩
  · have hm : id &&& ACVP_REQUEST_MASK ≠ 0 := by
      intro hz
      obtain ⟨a, b, c⟩ := (land_mask_eq_zero_iff id).mp hz
      rcases h with h | h | h <;> simp_all
    simp [hm]
  · obtain ⟨h0, h30, h29, h28⟩ := h
    have hz : id &&& ACVP_REQUEST_MASK = 0 :=
      (land_mask_eq_zero_iff id).mpr ⟨h30, h29, h28⟩
    simp [h0, hz]

/-- Witness for C5 at the usable identifier 5, the unset identifier 0 and a
pending-processing identifier. -/
theorem claim_C5_acvp_valid_id_witness :
    acvp_valid_id 5 = true ∧ acvp_valid_id 0 = false ∧
      acvp_valid_id (1 <<< 29 + 5) = false := by
  refine ⟨?_, ?_, ?_⟩
  · exact (claim_C5_acvp_valid_id 5 (by decide)).2.2
      ⟨by decide, by decide, by decide, by decide⟩
  · exact (claim_C5_acvp_valid_id 0 (by decide)).1 rfl
  · exact (claim_C5_acvp_valid_id (1 <<< 29 + 5) (by decide)).2.1
      (Or.inr (Or.inl (by decide)))

/-- C6: a NULL `oe_env_name` makes the software-dependency builder succeed
(return 0) with no document. -/
theorem claim_C6_build_dep_sw_no_doc (e : DefOe) (h : e.oe_env_name = none) :
    acvp_oe_build_dep_sw e = (0, none) := by
  unfold acvp_oe_build_dep_sw
  rw [h]

/-- Witness for C6 at the all-NULL entity. -/
theorem claim_C6_build_dep_sw_no_doc_witness :
    acvp_oe_build_dep_sw emptyOe = (0, none) :=
  claim_C6_build_dep_sw_no_doc emptyOe rfl

/-- C9: the built software-dependency document never carries both a cpe
string and a swid string: a configured cpe is emitted with a null swid
(also when a swid is configured too - cpe takes precedence), a configured
swid alone is emitted with a null cpe, and with neither configured both
members are null. -/
theorem claim_C9_cpe_xor_swid (e : DefOe) (n : String) (d : JsonVal)
    (hn : e.oe_env_name = some n) (hd : (acvp_oe_build_dep_sw e).2 = some d) :
    (¬ ∃ c w, json_object_object_get_ex d "cpe" = some (.str c) ∧
        json_object_object_get_ex d "swid" = some (.str w)) ∧
    (∀ c, e.cpe = some c →
      json_object_object_get_ex d "cpe" = some (.str c) ∧
      json_object_object_get_ex d "swid" = some .null) ∧
    (∀ w, e.cpe = none → e.swid = some w →
      json_object_object_get_ex d "cpe" = some .null ∧
      json_object_object_get_ex d "swid" = some (.str w)) ∧
    (e.cpe = none → e.swid = none →
      json_object_object_get_ex d "cpe" = some .null ∧
      json_object_object_get_ex d "swid" = some .null) := by
  unfold acvp_oe_build_dep_sw at hd
  rw [hn] at hd
  rcases hc : e.cpe with _ | c <;> rcases hs : e.swid with _ | w <;>
    rw [hc, hs] at hd <;> dsimp only at hd <;>
    obtain rfl := (Option.some.inj hd).symm <;>
    simp [json_object_object_get_ex, jsonAssocLookup, hc, hs]

/-- An entity configuring an environment name, a cpe and a swid. -/
def c9Oe : DefOe :=
  { emptyOe with
    oe_env_name := some "Linux 5.4",
    cpe := some "cpe-2.3:o:x",
    swid := some "sw-x" }

/-- Witness for C9 at an entity configuring both a cpe and a swid. -/
theorem claim_C9_cpe_xor_swid_witness :
    json_object_object_get_ex ((acvp_oe_build_dep_sw c9Oe).2.getD .null) "cpe"
        = some (.str "cpe-2.3:o:x") ∧
      json_object_object_get_ex ((acvp_oe_build_dep_sw c9Oe).2.getD .null) "swid"
        = some .null :=
  (claim_C9_cpe_xor_swid c9Oe "Linux 5.4" _ rfl rfl).2.1 "cpe-2.3:o:x" rfl

/-- C10 (implicit): when a dependency taken from a remote OE document fails
to match (`-ENOENT`) - a software dependency considered only when the local
environment name is declared, or a processor dependency - the matcher
resets the OE's own identifier `acvp_oe_id` to 0 and propagates the
no-match code. -/
theorem claim_C10_dep_mismatch_clears_oe_id (e : DefOe) (dep : JsonVal)
    (s : String) (hty : json_get_string dep "type" = .ok s)
    (hbr : ((e.oe_env_name.isSome && strStartsWith s "software") = true ∧
              (acvp_oe_match_dep_sw e dep).1 = -ENOENT) ∨
           ((e.oe_env_name.isSome && strStartsWith s "software") = false ∧
              strStartsWith s "processor" = true ∧
              (acvp_oe_match_dep_proc e dep).1 = -ENOENT)) :
    (acvp_oe_match_oe_deps_matcher e dep).1 = -ENOENT ∧
    (acvp_oe_match_oe_deps_matcher e dep).2.acvp_oe_id = 0 := by
  unfold acvp_oe_match_oe_deps_matcher
  rw [hty]
  dsimp only
  rcases hbr with ⟨hb, hm⟩ | ⟨hb, hp, hm⟩
  · rw [hb]
    simp [hm]
  · rw [hb, hp]
    simp [hm]

/-- Witness for C10: a software dependency whose name mismatches clears the
previously matched OE identifier 7. -/
theorem claim_C10_dep_mismatch_clears_oe_id_witness :
    (acvp_oe_match_oe_deps_matcher
        { emptyOe with oe_env_name := some "A", acvp_oe_id := 7 }
        (JsonVal.obj [("type", .str "software"), ("name", .str "B")])).1
      = -ENOENT ∧
    (acvp_oe_match_oe_deps_matcher
        { emptyOe with oe_env_name := some "A", acvp_oe_id := 7 }
        (JsonVal.obj [("type", .str "software"), ("name", .str "B")])).2.acvp_oe_id
      = 0 :=
  claim_C10_dep_mismatch_clears_oe_id _ _ "software" rfl
    (Or.inl ⟨by decide, by decide⟩)

/-- C4 (amended): both dependency matchers compare fields in a fixed order
and short-circuit; any nonzero exit (mismatch or schema error) leaves the
entity - in particular its dependency identifier - unchanged, and the
identifier is written, from the document's url, if and only if every
compared field matched AND the document carries a url with a parseable
trailing identifier (equivalently: iff the matcher returns 0). -/
theorem claim_C4_matcher_frame (e : DefOe) (j : JsonVal) :
    (((acvp_oe_match_dep_sw e j).1 ≠ 0 → (acvp_oe_match_dep_sw e j).2 = e) ∧
      ((acvp_oe_match_dep_sw e j).1 = 0 →
        ∃ u id, json_get_string j "url" = .ok u ∧
          acvp_get_id_from_url u = .ok id ∧
          (acvp_oe_match_dep_sw e j).2 = { e with acvp_oe_dep_sw_id := id })) ∧
    (((acvp_oe_match_dep_proc e j).1 ≠ 0 → (acvp_oe_match_dep_proc e j).2 = e) ∧
      ((acvp_oe_match_dep_proc e j).1 = 0 →
        ∃ u id, json_get_string j "url" = .ok u ∧
          acvp_get_id_from_url u = .ok id ∧
          (acvp_oe_match_dep_proc e j).2 = { e with acvp_oe_dep_proc_id := id })) :=
  ⟨acvp_oe_match_dep_sw_frame e j, acvp_oe_match_dep_proc_frame e j⟩

/-- The C4 counterexample entity: environment name only. -/
def c4Oe : DefOe := { emptyOe with oe_env_name := some "Linux 5.4" }

/-- The C4 counterexample document: every field the software matcher
compares is present and equal to the entity's, but there is no "url". -/
def c4Doc : JsonVal :=
  .obj [("type", .str "software"), ("name", .str "Linux 5.4"),
        ("description", .str "Linux 5.4")]

/-- C4 counterexample: at this entity and document every compared field
matches - witnessed by the same matcher returning 0 on the same document
once a url member is appended - yet on the url-less document no identifier
is written and the matcher exits with the no-match code `-ENOENT`.  So
"writes the Identifier if and only if every compared field matched" fails
in the only-if-to-if direction: full field agreement without a url yields
no write. -/
theorem claim_C4_counterexample :
    (acvp_oe_match_dep_sw c4Oe c4Doc).1 = -ENOENT ∧
    (acvp_oe_match_dep_sw c4Oe c4Doc).2 = c4Oe ∧
    (acvp_oe_match_dep_sw c4Oe (json_add_url c4Doc (acvp_dep_url 7))).1 = 0 ∧
    (acvp_oe_match_dep_sw c4Oe (json_add_url c4Doc (acvp_dep_url 7))).2
      = { c4Oe with acvp_oe_dep_sw_id := 7 } := by
  refine ⟨by decide, by decide, by decide, by decide⟩

/-- Witness for C4 at the concrete entity and url-less document: the
matcher exits nonzero and the entity is unchanged. -/
theorem claim_C4_matcher_frame_witness :
    (acvp_oe_match_dep_sw c4Oe
        (JsonVal.obj [("name", .str "other")])).2 = c4Oe ∧
    (acvp_oe_match_dep_proc c4Oe
        (JsonVal.obj [("manufacturer", .num 3)])).2 = c4Oe :=
  ⟨(claim_C4_matcher_frame c4Oe _).1.1 (by decide),
   (claim_C4_matcher_frame c4Oe _).2.1 (by decide)⟩

/-- C3 counterexample: the local entity declares neither cpe nor swid and
the remote document carries the cpe string "x", but its "name" member is
the number 1; the matcher exits with the schema error `-EINVAL`, which is
neither Match (0) nor Mismatch (`-ENOENT`). -/
theorem claim_C3_counterexample :
    (acvp_oe_match_dep_sw emptyOe
        (JsonVal.obj [("type", .str "software"), ("name", .num 1),
          ("cpe", .str "x")])).1 = -EINVAL ∧
    (-EINVAL : Int) ≠ -ENOENT ∧ (-EINVAL : Int) ≠ 0 := by
  refine ⟨by decide, by decide, by decide⟩

/-- C3 (amended): for every OE entity declaring neither a cpe nor a swid
and every remote software-dependency document carrying a cpe string or a
swid string, the matcher returns Mismatch (`-ENOENT`) - neither Match nor
any other error - provided the document's "name" member, when present, is
a string; a wrongly typed "name" yields the schema error `-EINVAL`
instead. -/
theorem claim_C3_remote_tag_mismatch (e : DefOe) (j : JsonVal)
    (hcpe : e.cpe = none) (hswid : e.swid = none)
    (hcarry : (∃ w, json_object_object_get_ex j "swid" = some (.str w)) ∨
              (∃ c, json_object_object_get_ex j "cpe" = some (.str c)))
    (hname : ∀ v, json_object_object_get_ex j "name" = some v →
      ∃ s, v = .str s) :
    (acvp_oe_match_dep_sw e j).1 = -ENOENT := by
  have hpres : (acvp_oe_match_dep_sw_presence e j).1 = -ENOENT := by
    unfold acvp_oe_match_dep_sw_presence
    rw [if_pos (by rw [hcpe, hswid]; rfl)]
    cases hjs : json_get_string j "swid" with
    | ok s => rfl
    | error r =>
      dsimp only
      cases hjc : json_get_string j "cpe" with
      | ok s => rfl
      | error r2 =>
        exfalso
        rcases hcarry with ⟨w, hw⟩ | ⟨c, hc⟩
        · rw [json_get_string_of_lookup_str hw] at hjs
          cases hjs
        · rw [json_get_string_of_lookup_str hc] at hjc
          cases hjc
  have hswidstage : (acvp_oe_match_dep_sw_swid e j).1 = -ENOENT := by
    unfold acvp_oe_match_dep_sw_swid
    rw [hswid]
    exact hpres
  have hcpestage : (acvp_oe_match_dep_sw_cpe e j).1 = -ENOENT := by
    unfold acvp_oe_match_dep_sw_cpe
    rw [hcpe]
    exact hswidstage
  unfold acvp_oe_match_dep_sw
  cases hjn : json_get_string j "name" with
  | error r =>
    have hre : r = -ENOENT := by
      cases hx : json_object_object_get_ex j "name" with
      | none =>
        rw [json_get_string_of_lookup_none hx] at hjn
        injection hjn with h2
        exact h2.symm
      | some v =>
        obtain ⟨s, rfl⟩ := hname v hx
        rw [json_get_string_of_lookup_str hx] at hjn
        cases hjn
    rw [hre]
  | ok s =>
    dsimp only
    rcases acvp_str_match_vals e.oe_env_name s with hm | hm
    · rw [hm, if_neg (by simp)]
      exact hcpestage
    · rw [hm, if_pos (by decide)]

/-- Witness for C3 at the empty entity and a document carrying only a cpe
string. -/
theorem claim_C3_remote_tag_mismatch_witness :
    (acvp_oe_match_dep_sw emptyOe (JsonVal.obj [("cpe", .str "x")])).1
      = -ENOENT :=
  claim_C3_remote_tag_mismatch emptyOe _ rfl rfl
    (Or.inr ⟨"x", rfl⟩)
    (fun v hv => by simp [json_object_object_get_ex, jsonAssocLookup] at hv)

/-- C1 counterexample: for the entity with environment name "Linux 5.4"
(and nothing else configured) the software-dependency builder produces a
document, and matching that document against the same entity returns
`-ENOENT` (reported as no-match), not 0 (Match): the built document carries
no "url" member, and extracting the identifier from "url" is the matcher's
final step. -/
theorem claim_C1_counterexample :
    (acvp_oe_build_dep_sw c4Oe).2.isSome = true ∧
    (acvp_oe_match_dep_sw c4Oe ((acvp_oe_build_dep_sw c4Oe).2.getD .null)).1
      = -ENOENT ∧
    (-ENOENT : Int) ≠ 0 := by
  refine ⟨by decide, by decide, by decide⟩

/-- C1 (amended): for every OE entity with a non-null environment name that
does not declare both a cpe and a swid, matching the entity against its own
built document EXTENDED WITH a self-referencing url returns Match (0) and
writes the url's identifier.  The law as the claim states it fails because
(a) built documents carry no "url" member, so the match ends `-ENOENT`, and
(b) an entity declaring both cpe and swid fails with a schema error even
with a url, since the builder suppresses the swid while the matcher still
requires it. -/
theorem claim_C1_roundtrip_with_url (e : DefOe) (n : String) (d : JsonVal)
    (hn : e.oe_env_name = some n) (hx : e.cpe = none ∨ e.swid = none)
    (hd : (acvp_oe_build_dep_sw e).2 = some d) :
    acvp_oe_match_dep_sw e (json_add_url d (acvp_dep_url 5)) =
      (0, { e with acvp_oe_dep_sw_id := 5 }) := by
  have hurl : acvp_get_id_from_url (acvp_dep_url 5) = .ok 5 := rfl
  unfold acvp_oe_build_dep_sw at hd
  rw [hn] at hd
  rcases hc : e.cpe with _ | c
  · rcases hs : e.swid with _ | w
    · rw [hc, hs] at hd
      rcases hdesc : e.oe_description with _ | dd <;>
        rw [hdesc] at hd <;> dsimp only at hd <;>
        obtain rfl := (Option.some.inj hd).symm <;>
        simp [acvp_oe_match_dep_sw, acvp_oe_match_dep_sw_cpe,
          acvp_oe_match_dep_sw_swid, acvp_oe_match_dep_sw_presence,
          acvp_oe_match_dep_sw_desc, acvp_oe_match_dep_sw_url,
          json_add_url, json_get_string, json_find_key,
          json_object_object_get_ex, jsonAssocLookup, JsonVal.typeOf,
          acvp_str_match, hc, hs, hdesc, hn, hurl, ENOENT, EINVAL]
    · rw [hc, hs] at hd
      rcases hdesc : e.oe_description with _ | dd <;>
        rw [hdesc] at hd <;> dsimp only at hd <;>
        obtain rfl := (Option.some.inj hd).symm <;>
        simp [acvp_oe_match_dep_sw, acvp_oe_match_dep_sw_cpe,
          acvp_oe_match_dep_sw_swid, acvp_oe_match_dep_sw_presence,
          acvp_oe_match_dep_sw_desc, acvp_oe_match_dep_sw_url,
          json_add_url, json_get_string, json_find_key,
          json_object_object_get_ex, jsonAssocLookup, JsonVal.typeOf,
          acvp_str_match, hc, hs, hdesc, hn, hurl, ENOENT, EINVAL]
  · rcases hs : e.swid with _ | w
    · rw [hc, hs] at hd
      rcases hdesc : e.oe_description with _ | dd <;>
        rw [hdesc] at hd <;> dsimp only at hd <;>
        obtain rfl := (Option.some.inj hd).symm <;>
        simp [acvp_oe_match_dep_sw, acvp_oe_match_dep_sw_cpe,
          acvp_oe_match_dep_sw_swid, acvp_oe_match_dep_sw_presence,
          acvp_oe_match_dep_sw_desc, acvp_oe_match_dep_sw_url,
          json_add_url, json_get_string, json_find_key,
          json_object_object_get_ex, jsonAssocLookup, JsonVal.typeOf,
          acvp_str_match, hc, hs, hdesc, hn, hurl, ENOENT, EINVAL]
    · rcases hx with h | h
      · rw [hc] at h; cases h
      · rw [hs] at h; cases h

/-- Witness for C1 (amended) at the "Linux 5.4" entity. -/
theorem claim_C1_roundtrip_with_url_witness :
    acvp_oe_match_dep_sw c4Oe
        (json_add_url ((acvp_oe_build_dep_sw c4Oe).2.getD .null)
          (acvp_dep_url 5)) =
      (0, { c4Oe with acvp_oe_dep_sw_id := 5 }) :=
  claim_C1_roundtrip_with_url c4Oe "Linux 5.4" _ rfl (Or.inl rfl) rfl

/-- The document `acvp_oe_build_dep_sw` actually produces for Scenario A's
entity (environment name "Linux 5.4", no cpe, no swid, no description). -/
def c2Body : JsonVal :=
  .obj [("type", .str "software"), ("name", .str "Linux 5.4"),
        ("cpe", .null), ("swid", .null), ("description", .str "Linux 5.4")]

/-- The three-member body Scenario A claims. -/
def c2ClaimedBody : JsonVal :=
  .obj [("type", .str "software"), ("name", .str "Linux 5.4"),
        ("description", .str "Linux 5.4")]

/-- C2 counterexample: with auto-registration enabled the registration of
the "Linux 5.4" software dependency issues exactly one POST on the
dependency collection, but its body also carries "cpe": null and
"swid": null members - it is not exactly the three-member document the
claim states. -/
theorem claim_C2_counterexample :
    (∀ ask, acvp_oe_register_dep { register_new_oe := true } ask c4Oe
        .sw .post false = (0, [⟨.post, acvp_dependency_url, some c2Body⟩])) ∧
    c2Body ≠ c2ClaimedBody := by
  constructor
  · intro ask; rfl
  · intro h
    unfold c2Body c2ClaimedBody at h
    simp at h

/-- C2 (amended): for the local software dependency named "Linux 5.4" with
neither cpe nor swid, auto-registration issues exactly one POST on the
dependency collection, whose body is `{"type": "software",
"name": "Linux 5.4", "cpe": null, "swid": null,
"description": "Linux 5.4"}` - the claimed three members plus the two
always-present null tag members. -/
theorem claim_C2_register_post_body :
    ∀ ask, acvp_oe_register_dep { register_new_oe := true } ask c4Oe
        .sw .post false = (0, [⟨.post, acvp_dependency_url, some c2Body⟩]) := by
  intro ask
  rfl

/-- In the assembled OE document, a `dependencyUrls` member can only be the
singleton processor URL when the entity's environment name is NULL. -/
theorem acvp_oe_build_oe_assemble_urls (deparray : List JsonVal) (e1 : DefOe)
    (henv : e1.oe_env_name = none) (l : List JsonVal)
    (hl : json_object_object_get_ex (acvp_oe_build_oe_assemble deparray e1)
        "dependencyUrls" = some (.arr l)) :
    ∃ p, p ≠ 0 ∧ l = [.str (acvp_dep_url p)] := by
  unfold acvp_oe_build_oe_assemble at hl
  rw [henv] at hl
  by_cases hp : e1.acvp_oe_dep_proc_id = 0
  · rw [if_pos hp] at hl
    dsimp only at hl
    simp only [List.append_nil, List.nil_append, List.isEmpty_nil,
      if_true] at hl
    split at hl <;>
      simp [json_object_object_get_ex, jsonAssocLookup] at hl
  · rw [if_neg hp] at hl
    dsimp only at hl
    simp only [List.append_nil, List.nil_append, List.isEmpty_cons,
      if_false, Bool.false_eq_true] at hl
    split at hl <;>
      simp [json_object_object_get_ex, jsonAssocLookup] at hl <;>
      exact ⟨e1.acvp_oe_dep_proc_id, hp, hl.symm⟩

/-- In the assembled OE document of an entity with a NULL environment name,
a `dependencies` member is exactly the embedded-dependency array handed to
the assembly. -/
theorem acvp_oe_build_oe_assemble_deps (deparray : List JsonVal) (e1 : DefOe)
    (henv : e1.oe_env_name = none) (l : List JsonVal)
    (hl : json_object_object_get_ex (acvp_oe_build_oe_assemble deparray e1)
        "dependencies" = some (.arr l)) :
    l = deparray := by
  unfold acvp_oe_build_oe_assemble at hl
  rw [henv] at hl
  by_cases hp : e1.acvp_oe_dep_proc_id = 0
  · rw [if_pos hp] at hl
    dsimp only at hl
    simp only [List.append_nil, List.nil_append, List.isEmpty_nil,
      if_true] at hl
    split at hl <;>
      simp [json_object_object_get_ex, jsonAssocLookup] at hl
    exact hl.symm
  · rw [if_neg hp] at hl
    dsimp only at hl
    simp only [List.append_nil, List.nil_append, List.isEmpty_cons,
      if_false, Bool.false_eq_true] at hl
    split at hl <;>
      simp [json_object_object_get_ex, jsonAssocLookup] at hl
    exact hl.symm

/-- C7: for an entity carrying a software-dependency identifier but a NULL
environment name, OE-document building proceeds without error (given the
abstracted dependency-validation network step succeeds and does not touch
the software identifier or the environment name), the built document
references no software dependency - its dependency-URL array, when present,
is exactly the one processor URL, and every embedded dependency is a
processor document - and the stored software-dependency identifier is left
unmodified (the inconsistency is only reported). -/
theorem claim_C7_inconsistent_sw_id (validate : DefOe → Int × DefOe)
    (dump : Bool) (e : DefOe)
    (hsw : e.acvp_oe_dep_sw_id ≠ 0) (henv : e.oe_env_name = none)
    (hval : ∀ x, (validate x).1 = 0 ∧
      (validate x).2.acvp_oe_dep_sw_id = x.acvp_oe_dep_sw_id ∧
      (validate x).2.oe_env_name = x.oe_env_name) :
    (acvp_oe_build_oe validate dump e).1 = 0 ∧
    (acvp_oe_build_oe validate dump e).2.2.acvp_oe_dep_sw_id
      = e.acvp_oe_dep_sw_id ∧
    ∃ doc, (acvp_oe_build_oe validate dump e).2.1 = some doc ∧
      (∀ l, json_object_object_get_ex doc "dependencyUrls" = some (.arr l) →
        ∃ p, p ≠ 0 ∧ l = [.str (acvp_dep_url p)]) ∧
      (∀ l, json_object_object_get_ex doc "dependencies" = some (.arr l) →
        ∀ dep ∈ l, json_object_object_get_ex dep "type"
          = some (.str "processor")) := by
  obtain ⟨hv0, hvsw, hvenv⟩ := hval e
  have hv1 : (if dump then ((0 : Int), e) else validate e).1 = 0 := by
    by_cases hdump : dump <;> simp [hdump, hv0]
  have hv2 : (if dump then ((0 : Int), e) else validate e).2.acvp_oe_dep_sw_id
      = e.acvp_oe_dep_sw_id := by
    by_cases hdump : dump <;> simp [hdump, hvsw]
  have hv3 : (if dump then ((0 : Int), e) else validate e).2.oe_env_name
      = none := by
    by_cases hdump : dump <;> simp [hdump, hvenv, henv]
  have hdeps :
      (acvp_oe_build_oe_deps validate dump e).1 = 0 ∧
      (acvp_oe_build_oe_deps validate dump e).2.2.acvp_oe_dep_sw_id
        = e.acvp_oe_dep_sw_id ∧
      (acvp_oe_build_oe_deps validate dump e).2.2.oe_env_name = none ∧
      (∀ d ∈ (acvp_oe_build_oe_deps validate dump e).2.1,
        json_object_object_get_ex d "type" = some (.str "processor")) := by
    unfold acvp_oe_build_oe_deps
    by_cases hc : (e.acvp_oe_dep_proc_id = 0 ∨ e.acvp_oe_dep_sw_id = 0)
    · rw [if_pos hc]
      dsimp only
      have hswne : ¬ (if dump then ((0 : Int), e) else
          validate e).2.acvp_oe_dep_sw_id = 0 := by
        rw [hv2]; exact hsw
      rw [if_pos hv1, if_neg hswne]
      refine ⟨rfl, hv2, hv3, ?_⟩
      intro d hd
      dsimp only at hd
      rw [List.append_nil] at hd
      by_cases hp : (if dump then ((0 : Int), e) else
          validate e).2.acvp_oe_dep_proc_id = 0
      · rw [if_pos hp] at hd
        rcases List.mem_singleton.mp hd with rfl
        rfl
      · rw [if_neg hp] at hd
        cases hd
    · rw [if_neg hc]
      exact ⟨rfl, rfl, henv, fun d hd => absurd hd (List.not_mem_nil d)⟩
  obtain ⟨h1, h2, h3, h4⟩ := hdeps
  unfold acvp_oe_build_oe
  dsimp only
  rw [if_pos h1]
  refine ⟨rfl, h2, _, rfl, ?_, ?_⟩
  · intro l hl
    exact acvp_oe_build_oe_assemble_urls _ _ h3 l hl
  · intro l hl
    obtain rfl := acvp_oe_build_oe_assemble_deps _ _ h3 l hl
    exact h4

/-- An inconsistent entity: both dependency identifiers set, no
environment name. -/
def c7Oe : DefOe :=
  { emptyOe with
    acvp_oe_dep_sw_id := 3,
    acvp_oe_dep_proc_id := 7 }

/-- Witness for C7 at an entity with both dependency identifiers set, the
all-success validation oracle and dump mode off. -/
theorem claim_C7_inconsistent_sw_id_witness :
    (acvp_oe_build_oe (fun x => (0, x)) false c7Oe).1 = 0 ∧
    (acvp_oe_build_oe (fun x => (0, x)) false c7Oe).2.2.acvp_oe_dep_sw_id
      = 3 :=
  let h := claim_C7_inconsistent_sw_id (fun x => (0, x)) false c7Oe
    (by decide) rfl (fun x => ⟨rfl, rfl, rfl⟩)
  ⟨h.1, h.2.1⟩

theorem oe_no_poll_append {tr1 tr2 : List OeEvent}
    (h1 : ∀ ev ∈ tr1, ev.isPoll = false)
    (h2 : ∀ ev ∈ tr2, ev.isPoll = false) :
    ∀ ev ∈ tr1 ++ tr2, ev.isPoll = false := by
  intro ev hev
  rcases List.mem_append.mp hev with h | h
  · exact h1 ev h
  · exact h2 ev h

theorem acvp_oe_handle_known_oe_no_poll (O : OeOracles) (eB : DefOe)
    (tr : List OeEvent) (hpre : ∀ ev ∈ tr, ev.isPoll = false) :
    ∀ ev ∈ (acvp_oe_handle_known_oe O eB tr).2.2, ev.isPoll = false := by
  unfold acvp_oe_handle_known_oe
  dsimp only
  by_cases h1 : (O.validateOneOe eB).1 ≠ 0
  · rw [if_pos h1]
    exact oe_no_poll_append hpre (by decide)
  · rw [if_neg h1]
    by_cases h2 : ((O.validateOneOe eB).2.acvp_oe_dep_proc_id = 0
        ∨ ((O.validateOneOe eB).2.oe_env_name.isSome
            ∧ (O.validateOneOe eB).2.acvp_oe_dep_sw_id = 0))
    · rw [if_pos h2]
      exact oe_no_poll_append hpre (by decide)
    · rw [if_neg h2]
      exact oe_no_poll_append hpre (by decide)

theorem acvp_oe_handle_search_oe_no_poll (O : OeOracles) (sdb : Bool)
    (eB : DefOe) (tr : List OeEvent)
    (hpre : ∀ ev ∈ tr, ev.isPoll = false) :
    ∀ ev ∈ (acvp_oe_handle_search_oe O sdb eB tr).2.2, ev.isPoll = false := by
  unfold acvp_oe_handle_search_oe
  dsimp only
  by_cases h0 : (sdb ∨ eB.acvp_oe_dep_proc_id = 0
      ∨ (eB.oe_env_name.isSome ∧ eB.acvp_oe_dep_sw_id = 0))
  · rw [if_pos h0]
    dsimp only
    by_cases h1 : (O.validateAllDep eB).1 ≠ 0
    · rw [if_pos h1]
      exact oe_no_poll_append (oe_no_poll_append hpre (by decide)) (by decide)
    · rw [if_neg h1]
      exact oe_no_poll_append (oe_no_poll_append hpre (by decide)) (by decide)
  · rw [if_neg h0]
    dsimp only
    have hz : ¬ ((0 : Int) ≠ 0) := by simp
    rw [if_neg hz]
    exact oe_no_poll_append (oe_no_poll_append hpre (by decide)) (by decide)

theorem acvp_oe_handle_sw_stage_no_poll (O : OeOracles) (sdb : Bool)
    (rA : Int) (eA : DefOe) (tr : List OeEvent)
    (hpre : ∀ ev ∈ tr, ev.isPoll = false) :
    ∀ ev ∈ (acvp_oe_handle_sw_stage O sdb rA eA tr).2.2, ev.isPoll = false := by
  unfold acvp_oe_handle_sw_stage
  dsimp only
  by_cases hsw : eA.acvp_oe_dep_sw_id ≠ 0
  · rw [if_pos hsw]
    by_cases henv : eA.oe_env_name.isSome = true
    · rw [if_pos henv]
      dsimp only
      by_cases h1 : Int.lor rA (O.validateOneDep AcvpOeDepType.sw eA).1 ≠ 0
      · rw [if_pos h1]
        exact oe_no_poll_append (oe_no_poll_append hpre (by decide)) (by decide)
      · rw [if_neg h1]
        by_cases h2 : ((O.validateOneDep AcvpOeDepType.sw eA).2.acvp_oe_id ≠ 0
            ∧ ¬ sdb = true)
        · rw [if_pos h2]
          exact acvp_oe_handle_known_oe_no_poll _ _ _
            (oe_no_poll_append hpre (by decide))
        · rw [if_neg h2]
          exact acvp_oe_handle_search_oe_no_poll _ _ _ _
            (oe_no_poll_append hpre (by decide))
    · rw [if_neg henv]
      dsimp only
      by_cases h1 : rA ≠ 0
      · rw [if_pos h1]
        exact oe_no_poll_append (oe_no_poll_append hpre (by decide)) (by decide)
      · rw [if_neg h1]
        by_cases h2 : (eA.acvp_oe_id ≠ 0 ∧ ¬ sdb = true)
        · rw [if_pos h2]
          exact acvp_oe_handle_known_oe_no_poll _ _ _
            (oe_no_poll_append hpre (by decide))
        · rw [if_neg h2]
          exact acvp_oe_handle_search_oe_no_poll _ _ _ _
            (oe_no_poll_append hpre (by decide))
  · rw [if_neg hsw]
    dsimp only
    by_cases h1 : rA ≠ 0
    · rw [if_pos h1]
      exact oe_no_poll_append (oe_no_poll_append hpre (by decide)) (by decide)
    · rw [if_neg h1]
      by_cases h2 : (eA.acvp_oe_id ≠ 0 ∧ ¬ sdb = true)
      · rw [if_pos h2]
        exact acvp_oe_handle_known_oe_no_poll _ _ _
          (oe_no_poll_append hpre (by decide))
      · rw [if_neg h2]
        exact acvp_oe_handle_search_oe_no_poll _ _ _ _
          (oe_no_poll_append hpre (by decide))

/-- The reconciliation phase of the OE handler emits no poll events. -/
theorem acvp_oe_handle_recon_no_poll (O : OeOracles) (sdb : Bool)
    (e : DefOe) :
    ∀ ev ∈ (acvp_oe_handle_recon O sdb e).2.2, ev.isPoll = false := by
  unfold acvp_oe_handle_recon
  dsimp only
  by_cases hp : e.acvp_oe_dep_proc_id ≠ 0
  · rw [if_pos hp]
    dsimp only
    by_cases h1 : ((O.validateOneDep AcvpOeDepType.proc e).1 ≠ 0
        ∧ (O.validateOneDep AcvpOeDepType.proc e).1 ≠ -EAGAIN)
    · rw [if_pos h1]
      exact oe_no_poll_append (by decide) (by decide)
    · rw [if_neg h1]
      exact acvp_oe_handle_sw_stage_no_poll _ _ _ _ _ (by decide)
  · rw [if_neg hp]
    dsimp only
    have hno : ¬ (((0 : Int)) ≠ 0 ∧ ((0 : Int)) ≠ -EAGAIN) := by simp
    rw [if_neg hno]
    exact acvp_oe_handle_sw_stage_no_poll _ _ _ _ _ (by decide)

/-- C8 counterexample: in a dump-register run of the OE handler, register
steps execute with no poll at all - the async-request poll does not
complete before them, and they are validate/search/register steps of the
handler.  Concretely, with all-success collaborators the dump-mode trace is
lock, register processor dependency, register software dependency,
register OE, unlock. -/
theorem claim_C8_counterexample :
    (acvp_oe_handle trivOeOracles true false emptyOe).2.2
      = [.lockOe, .regDepProc, .regDepSw, .regOe, .unlockOe] ∧
    OeEvent.regDepProc.isRecon = true ∧
    (∀ ev ∈ (acvp_oe_handle trivOeOracles true false emptyOe).2.2,
      ev.isPoll = false) := by
  refine ⟨rfl, rfl, by decide⟩

/-- C8 (amended): in every run of the OE handler with dump-register mode
off, after the entity lock is acquired the three async-request polls
(processor dependency, software dependency, OE) run first - the trace
begins lock, poll, poll, poll, and no later event is a poll - and when any
of the three polls fails, no reconciliation step (validate/search/register)
runs in that run.  When the lock step fails nothing at all runs. -/
theorem claim_C8_poll_before_reconcile (O : OeOracles) (show_db : Bool)
    (e0 : DefOe) :
    ((O.getOeId e0).1 ≠ 0 →
      (acvp_oe_handle O false show_db e0).2.2 = []) ∧
    ((O.getOeId e0).1 = 0 →
      ∃ rest, (acvp_oe_handle O false show_db e0).2.2
          = .lockOe :: .pollProcDep :: .pollSwDep :: .pollOe :: rest ∧
        (∀ ev ∈ rest, ev.isPoll = false) ∧
        (((O.obtainRequestResult
              (O.getOeId e0).2.acvp_oe_dep_proc_id).1 ≠ 0 ∨
          (O.obtainRequestResult
              (O.getOeId e0).2.acvp_oe_dep_sw_id).1 ≠ 0 ∨
          (O.obtainRequestResult (O.getOeId e0).2.acvp_oe_id).1 ≠ 0) →
          ∀ ev ∈ rest, ev.isRecon = false)) := by
  constructor
  · intro hlock
    unfold acvp_oe_handle
    dsimp only
    rw [if_pos hlock]
  · intro hlock
    unfold acvp_oe_handle
    dsimp only
    have hnl : ¬ ((O.getOeId e0).1 ≠ 0) := not_not_intro hlock
    rw [if_neg hnl]
    rw [if_neg Bool.false_ne_true]
    try dsimp only
    by_cases hpoll :
        Int.lor (O.obtainRequestResult
            (O.getOeId e0).2.acvp_oe_dep_proc_id).1
          (Int.lor (O.obtainRequestResult
              (O.getOeId e0).2.acvp_oe_dep_sw_id).1
            (O.obtainRequestResult (O.getOeId e0).2.acvp_oe_id).1) = 0
    · rw [if_neg (not_not_intro hpoll)]
      have hz := (int_lor_eq_zero_iff _ _).mp hpoll
      have hz23 := (int_lor_eq_zero_iff _ _).mp hz.2
      have hnofail : ¬ ((O.obtainRequestResult
            (O.getOeId e0).2.acvp_oe_dep_proc_id).1 ≠ 0 ∨
          (O.obtainRequestResult
            (O.getOeId e0).2.acvp_oe_dep_sw_id).1 ≠ 0 ∨
          (O.obtainRequestResult (O.getOeId e0).2.acvp_oe_id).1 ≠ 0) := by
        rintro (h | h | h)
        · exact h hz.1
        · exact h hz23.1
        · exact h hz23.2
      exact ⟨_, rfl, fun ev hev => acvp_oe_handle_recon_no_poll _ _ _ ev hev,
        fun hf => absurd hf hnofail⟩
    · rw [if_pos hpoll]
      exact ⟨[.unlockOe], rfl, by decide, fun _ => by decide⟩

/-- Witness for C8 (amended) at the all-success collaborators: the trace is
lock, the three polls, then the reconciliation events. -/
theorem claim_C8_poll_before_reconcile_witness :
    ∃ rest, (acvp_oe_handle trivOeOracles false false emptyOe).2.2
        = .lockOe :: .pollProcDep :: .pollSwDep :: .pollOe :: rest ∧
      (∀ ev ∈ rest, ev.isPoll = false) ∧
      (((trivOeOracles.obtainRequestResult
            (trivOeOracles.getOeId emptyOe).2.acvp_oe_dep_proc_id).1 ≠ 0 ∨
        (trivOeOracles.obtainRequestResult
            (trivOeOracles.getOeId emptyOe).2.acvp_oe_dep_sw_id).1 ≠ 0 ∨
        (trivOeOracles.obtainRequestResult
            (trivOeOracles.getOeId emptyOe).2.acvp_oe_id).1 ≠ 0) →
        ∀ ev ∈ rest, ev.isRecon = false) :=
  (claim_C8_poll_before_reconcile trivOeOracles false emptyOe).2 rfl
